import Mathlib

/-!
Shallow embedding of the basketball-pose-analyser frontend
(React/TypeScript) and proofs about its client-side logic.

The embedding covers:
* the quality-tier color selection (`PoseAnalysis.tsx`, `getQualityColor`;
  the inline quality ternaries of `PlayerProgress`);
* the file-upload handler of the `FileUpload` component
  (`VideoAnalysis.simple.tsx`, `onDrop` and the `useDropzone` configuration);
* the upload-progress computation of `api.ts` (`uploadVideo`,
  `onUploadProgress`) with `Math.round` modelled exactly;
* the analysis workflow of `PoseAnalysis.tsx` / the video-analysis
  component (`analyzeFile` / `analyzeVideo`);
* the request-interceptor of `api.ts` that attaches the bearer token,
  contrasted with the bare `axios` calls issued by the components;
* the defensive rendering of optional numeric metrics
  (`value?.toFixed(n) || 'N/A'` and `(value || 0)` cells);
* the top-level tab selection of `App.tsx` (`handleFileUpload`).

JavaScript numbers are modelled as rationals, `Math.round` as
`fun q => Int.floor (q + 1/2)` (exact for every input), strings as Lean
strings, absent / `undefined` values as `Option`, and the JS truthiness
of `x || y` on strings (where the empty string is falsy) explicitly.
-/

namespace BasketballPose

/-- The three MUI color tiers used for quality-dependent coloring. -/
inductive Tier
  | success
  | warning
  | error
deriving DecidableEq, Repr

/-- Embeds `getQualityColor` of `PoseAnalysis.tsx`:
`if (score > 0.8) return 'success'; if (score > 0.6) return 'warning';
return 'error';`. -/
def getQualityColor (score : ℚ) : Tier :=
  if score > 8/10 then .success
  else if score > 6/10 then .warning
  else .error

/-- Embeds the inline quality ternary of `PlayerProgress`
(`session.quality > 0.8 ? 'success' : session.quality > 0.6 ?
'warning' : 'error'`). -/
def sessionQualityColor (q : ℚ) : Tier :=
  if q > 8/10 then .success
  else if q > 6/10 then .warning
  else .error

/-- JS `String.prototype.startsWith`, modelled character-wise. -/
def jsStartsWith (s p : String) : Bool :=
  p.data.isPrefixOf s.data

/-- JS-style suffix test on strings, modelled character-wise (used for
the dropzone extension allow-list). -/
def jsEndsWith (s p : String) : Bool :=
  p.data.isSuffixOf s.data

/-- A browser `File` value as seen by the upload handler: its name,
its MIME type and its size in bytes. -/
structure JsFile where
  name : String
  mimeType : String
  size : ℕ
deriving DecidableEq, Repr

/-- Embeds `const isVideo = file.type.startsWith('video/')` of the
`onDrop` handler in `VideoAnalysis.simple.tsx`. -/
def isVideoFile (f : JsFile) : Bool :=
  jsStartsWith f.mimeType "video/"

/-- Embeds `const endpoint = isVideo ? '/upload-video' : '/upload-image'`. -/
def uploadEndpoint (f : JsFile) : String :=
  if isVideoFile f then "/upload-video" else "/upload-image"

/-- The `UploadResponse` shape of `api.ts`. -/
structure UploadResponse where
  filename : String
  file_path : String
  file_size : ℕ
  upload_time : String
deriving DecidableEq, Repr

/-- The media kind reported to the parent component. -/
inductive MediaKind
  | image
  | video
deriving DecidableEq, Repr

/-- Embeds the success path of `onDrop`:
`onFileUpload(response.data.filename, isVideo ? 'video' : 'image')` —
the pair handed to the caller-supplied completion hook. -/
def reportedUpload (f : JsFile) (resp : UploadResponse) : String × MediaKind :=
  (resp.filename, if isVideoFile f then .video else .image)

/-- Claim C1: the quality-tier color selection is a pure function of the
numeric score: success iff `score > 0.8`, warning iff
`0.6 < score ≤ 0.8`, error iff `score ≤ 0.6`; the boundary score `0.8`
maps to the warning tier and `0.6` to the error tier; the inline
`PlayerProgress` ternary computes the same tier. -/
theorem quality_color_spec :
    (∀ s : ℚ,
      (getQualityColor s = Tier.success ↔ 8/10 < s) ∧
      (getQualityColor s = Tier.warning ↔ 6/10 < s ∧ s ≤ 8/10) ∧
      (getQualityColor s = Tier.error ↔ s ≤ 6/10) ∧
      sessionQualityColor s = getQualityColor s) ∧
    getQualityColor (8/10) = Tier.warning ∧
    getQualityColor (6/10) = Tier.error := by
  refine ⟨fun s => ?_, ?_, ?_⟩
  · unfold getQualityColor sessionQualityColor
    split_ifs with h1 h2
    · exact ⟨iff_of_true rfl h1,
        iff_of_false (by simp) (fun h => absurd h1 (not_lt.mpr h.2)),
        iff_of_false (by simp) (fun h => absurd h1 (not_lt.mpr (by linarith))),
        rfl⟩
    · exact ⟨iff_of_false (by simp) h1,
        iff_of_true rfl ⟨h2, le_of_not_lt h1⟩,
        iff_of_false (by simp) (fun h => absurd h2 (not_lt.mpr h)),
        rfl⟩
    · exact ⟨iff_of_false (by simp) h1,
        iff_of_false (by simp) (fun h => absurd h.1 h2),
        iff_of_true rfl (le_of_not_lt h2),
        rfl⟩
  · unfold getQualityColor
    rw [if_neg (by norm_num), if_pos (by norm_num)]
  · unfold getQualityColor
    rw [if_neg (by norm_num), if_neg (by norm_num)]

/-- Claim C2: for every successful upload, the filename handed to the
caller-supplied completion hook equals the `filename` field of the HTTP
response body; the reported media kind is `video` iff the file's MIME
type starts with `video/`; and the same MIME-prefix test selects the
video upload endpoint (otherwise the image endpoint). -/
theorem upload_report_spec (f : JsFile) (resp : UploadResponse) :
    (reportedUpload f resp).1 = resp.filename ∧
    ((reportedUpload f resp).2 = MediaKind.video ↔
      jsStartsWith f.mimeType "video/" = true) ∧
    ((reportedUpload f resp).2 = MediaKind.image ↔
      jsStartsWith f.mimeType "video/" = false) ∧
    (uploadEndpoint f = "/upload-video" ↔
      jsStartsWith f.mimeType "video/" = true) ∧
    (uploadEndpoint f = "/upload-image" ↔
      jsStartsWith f.mimeType "video/" = false) := by
  unfold reportedUpload uploadEndpoint isVideoFile
  cases h : jsStartsWith f.mimeType "video/" <;> simp [h]

/-- JS `Math.round`: for every real input, `Math.round x = ⌊x + 0.5⌋`
(ties round toward positive infinity). -/
def jsRound (q : ℚ) : ℤ :=
  ⌊q + 1/2⌋

/-- Embeds the progress computation of `api.ts` / `uploadVideo`:
`Math.round((progressEvent.loaded * 100) / progressEvent.total)`. -/
def progressValue (loaded total : ℕ) : ℤ :=
  jsRound ((loaded : ℚ) * 100 / (total : ℚ))

/-- One upload transfer as seen by the `onUploadProgress` handler: the
fixed byte total of the request body and the sequence of `loaded` byte
counts carried by the transport progress events, in order. -/
structure Transfer where
  total : ℕ
  loadedSeq : List ℕ

/-- A transport-level transfer is well formed when the total is positive,
the loaded byte counts never decrease, never exceed the total, and the
final progress event reports the full total (completion). -/
def Transfer.wellFormed (t : Transfer) : Prop :=
  0 < t.total ∧
  t.loadedSeq.Chain' (fun a b => a ≤ b) ∧
  (∀ l ∈ t.loadedSeq, l ≤ t.total) ∧
  t.loadedSeq.getLast? = some t.total

/-- The values passed to the caller's `onProgress` callback: `api.ts`
guards each emission with `if (onProgress && progressEvent.total)`, so
nothing is emitted when the total is zero (falsy). -/
def Transfer.emitted (t : Transfer) : List ℤ :=
  if t.total = 0 then []
  else t.loadedSeq.map (fun l => progressValue l t.total)

theorem progressValue_mono {total : ℕ} (ht : 0 < total) {a b : ℕ}
    (hab : a ≤ b) : progressValue a total ≤ progressValue b total := by
  unfold progressValue jsRound
  apply Int.floor_le_floor
  have h0 : (0 : ℚ) < total := by exact_mod_cast ht
  have hab2 : (a : ℚ) ≤ b := by exact_mod_cast hab
  gcongr

theorem progressValue_nonneg (l total : ℕ) : 0 ≤ progressValue l total := by
  unfold progressValue jsRound
  rw [Int.le_floor]
  push_cast
  positivity

theorem progressValue_le_hundred {l total : ℕ} (ht : 0 < total)
    (hl : l ≤ total) : progressValue l total ≤ 100 := by
  unfold progressValue jsRound
  have h0 : (0 : ℚ) < total := by exact_mod_cast ht
  have hl2 : (l : ℚ) ≤ total := by exact_mod_cast hl
  have hq : (l : ℚ) * 100 / total ≤ 100 := by
    rw [div_le_iff₀ h0]
    nlinarith
  calc ⌊(l : ℚ) * 100 / total + 1/2⌋
      ≤ ⌊(100 : ℚ) + 1/2⌋ := Int.floor_le_floor (by linarith)
    _ = 100 := by norm_num

theorem progressValue_self {total : ℕ} (ht : 0 < total) :
    progressValue total total = 100 := by
  unfold progressValue jsRound
  have h0 : (total : ℚ) ≠ 0 := by
    exact_mod_cast ht.ne'
  rw [mul_comm, mul_div_assoc, div_self h0, mul_one]
  norm_num

/-- Claim C3: within a single upload, the values passed to the progress
callback are exactly `Math.round(loaded * 100 / total)` for the
successive transport events, they are monotonically non-decreasing, each
lies in the range `0..100`, and the final value on completion is
exactly `100`. -/
theorem upload_progress_spec (t : Transfer) (h : t.wellFormed) :
    t.emitted = t.loadedSeq.map
      (fun (l : ℕ) => jsRound ((l : ℚ) * 100 / (t.total : ℚ))) ∧
    t.emitted.Chain' (fun a b => a ≤ b) ∧
    (∀ v ∈ t.emitted, 0 ≤ v ∧ v ≤ 100) ∧
    t.emitted.getLast? = some 100 := by
  obtain ⟨htpos, hchain, hle, hlast⟩ := h
  have htne : t.total ≠ 0 := htpos.ne'
  have hemit : t.emitted = t.loadedSeq.map (fun l => progressValue l t.total) := by
    unfold Transfer.emitted
    rw [if_neg htne]
  refine ⟨hemit.trans rfl, ?_, ?_, ?_⟩
  · rw [hemit, List.chain'_map]
    exact hchain.imp (fun a b hab => progressValue_mono htpos hab)
  · intro v hv
    rw [hemit, List.mem_map] at hv
    obtain ⟨l, hl, rfl⟩ := hv
    exact ⟨progressValue_nonneg l t.total,
      progressValue_le_hundred htpos (hle l hl)⟩
  · rw [hemit, List.getLast?_map, hlast]
    simp [progressValue_self htpos]

/-- Witness for C3: the concrete transfer with total `200` bytes and
progress events at `0`, `100`, `150` and `200` loaded bytes is well
formed, and `upload_progress_spec` applies to it. -/
theorem upload_progress_witness :
    (Transfer.mk 200 [0, 100, 150, 200]).wellFormed ∧
    ((Transfer.mk 200 [0, 100, 150, 200]).emitted =
        ([0, 100, 150, 200] : List ℕ).map
          (fun (l : ℕ) => jsRound ((l : ℚ) * 100 / ((200 : ℕ) : ℚ))) ∧
      (Transfer.mk 200 [0, 100, 150, 200]).emitted.Chain' (fun a b => a ≤ b) ∧
      (∀ v ∈ (Transfer.mk 200 [0, 100, 150, 200]).emitted, 0 ≤ v ∧ v ≤ 100) ∧
      (Transfer.mk 200 [0, 100, 150, 200]).emitted.getLast? = some 100) := by
  have hwf : (Transfer.mk 200 [0, 100, 150, 200]).wellFormed := by
    refine ⟨by decide, ?_, by decide, by decide⟩
    simp [List.chain'_cons]
  exact ⟨hwf, upload_progress_spec (Transfer.mk 200 [0, 100, 150, 200]) hwf⟩

/-- The local state of an analysis view (`PoseAnalysis.tsx` and the
video-analysis component): the `analyzing` flag, the stored `result`
(payload of type `α`, since the response is `any`-typed) and the
`error` string (`null` modelled as `none`). -/
structure AnalysisState (α : Type) where
  analyzing : Bool
  result : Option α
  error : Option String
deriving DecidableEq, Repr

/-- Embeds the synchronous head of `analyzeFile` / `analyzeVideo`:
`if (!uploadedFile) return; setAnalyzing(true); setError(null);`.
Note that `setResult` is not called here — the stored result is kept. -/
def analyzeStart {α : Type} (uploadedFile : Option String)
    (s : AnalysisState α) : AnalysisState α :=
  match uploadedFile with
  | none => s
  | some _ => { s with analyzing := true, error := none }

/-- The URL of the analyze call issued by `analyzeFile` when a filename
is known (`axios.post` with a template URL), `none` when the guard
`if (!uploadedFile) return` fires. -/
def analyzeRequestUrl (uploadedFile : Option String) : Option String :=
  uploadedFile.map
    (fun f => "http://localhost:8000/api/v1/pose/analyze-image/" ++ f)

/-- JS `a || b` for a possibly-undefined string `a`: the empty string is
falsy, so it also falls through to `b`. -/
def jsOrString (a : Option String) (b : String) : String :=
  match a with
  | some s => if s = "" then b else s
  | none => b

/-- Embeds the `catch` and `finally` blocks of `analyzeFile`:
`setError(err.response?.data?.detail || 'Analysis failed')` followed by
`setAnalyzing(false)`. The optional-chain `err.response?.data?.detail`
is modelled as an `Option String` input; `result` is not touched. -/
def analyzeFail {α : Type} (detail : Option String)
    (s : AnalysisState α) : AnalysisState α :=
  { s with analyzing := false,
           error := some (jsOrString detail "Analysis failed") }

/-- What the error region shows: the JSX `{error && <Alert>{error}</Alert>}`
renders the alert only when `error` is truthy (non-null and non-empty). -/
def displayedError {α : Type} (s : AnalysisState α) : Option String :=
  match s.error with
  | some e => if e = "" then none else some e
  | none => none

/-- Claim C4 (amended): when an uploaded filename is known, invoking the
analyze action clears the prior error, enters the `Analyzing` state and
issues the analyze call, but leaves the prior result unchanged. -/
theorem analyze_start_spec {α : Type} (s : AnalysisState α) (f : String) :
    (analyzeStart (some f) s).analyzing = true ∧
    (analyzeStart (some f) s).error = none ∧
    (analyzeStart (some f) s).result = s.result ∧
    analyzeRequestUrl (some f) =
      some ("http://localhost:8000/api/v1/pose/analyze-image/" ++ f) := by
  exact ⟨rfl, rfl, rfl, rfl⟩

/-- Counterexample to C4 as stated: starting from a state that holds a
previous result, the analyze action does not clear it — the stored
result is still present after the action starts. -/
theorem analyze_start_keeps_result :
    (analyzeStart (some "shot.png")
      (AnalysisState.mk (α := ℕ) false (some 7) (some "old error"))).result
      ≠ none := by
  decide

/-- Claim C5 (amended): when the analyze call fails with a non-empty
`detail` string in the error payload, exactly that string is displayed
in the error region; when the field is absent, the generic message
`Analysis failed` is shown; in both cases the previously stored result
is left unchanged and the `Analyzing` state is exited. -/
theorem analyze_failure_spec {α : Type} (s : AnalysisState α) (d : String)
    (hd : d ≠ "") :
    displayedError (analyzeFail (some d) s) = some d ∧
    (analyzeFail (some d) s).result = s.result ∧
    (analyzeFail (some d) s).analyzing = false ∧
    displayedError (analyzeFail (none : Option String) s) =
      some "Analysis failed" ∧
    (analyzeFail (none : Option String) s).result = s.result := by
  refine ⟨?_, rfl, rfl, ?_, rfl⟩
  · unfold displayedError analyzeFail jsOrString
    simp [hd]
  · unfold displayedError analyzeFail jsOrString
    simp

/-- Witness for C5: the spec scenario — a rejected analyze call with
`detail: "file not found"` and a previously stored result. -/
theorem analyze_failure_witness :
    ("file not found" : String) ≠ "" ∧
    (displayedError (analyzeFail (some "file not found")
        (AnalysisState.mk (α := ℕ) true (some 42) none)) =
      some "file not found" ∧
    (analyzeFail (some "file not found")
        (AnalysisState.mk (α := ℕ) true (some 42) none)).result =
      (AnalysisState.mk (α := ℕ) true (some 42) none).result ∧
    (analyzeFail (some "file not found")
        (AnalysisState.mk (α := ℕ) true (some 42) none)).analyzing = false ∧
    displayedError (analyzeFail (none : Option String)
        (AnalysisState.mk (α := ℕ) true (some 42) none)) =
      some "Analysis failed" ∧
    (analyzeFail (none : Option String)
        (AnalysisState.mk (α := ℕ) true (some 42) none)).result =
      (AnalysisState.mk (α := ℕ) true (some 42) none).result) :=
  ⟨by decide,
    analyze_failure_spec (AnalysisState.mk (α := ℕ) true (some 42) none)
      "file not found" (by decide)⟩

/-- Counterexample to C5 as stated: a failure payload that does contain
a `detail` field holding the empty string displays the generic fallback
message, not that (empty) string, because `detail || 'Analysis failed'`
treats the empty string as falsy. -/
theorem analyze_failure_empty_detail :
    displayedError (analyzeFail (some "")
      (AnalysisState.mk (α := ℕ) false none none)) =
      some "Analysis failed" := by
  decide

/-- An outbound HTTP request: its URL and its `Authorization` header
value, when one is set. -/
structure HttpRequest where
  url : String
  authHeader : Option String
deriving DecidableEq, Repr

/-- Embeds the request interceptor of `api.ts`:
`const token = localStorage.getItem('auth_token');
if (token) config.headers.Authorization = `Bearer ...`` — the token is
attached only when truthy (present and non-empty). -/
def applyAuthInterceptor (token : Option String)
    (req : HttpRequest) : HttpRequest :=
  match token with
  | some t => if t = "" then req
              else { req with authHeader := some ("Bearer " ++ t) }
  | none => req

/-- A request issued through the shared `apiClient` of `api.ts`: it goes
through the request interceptor. -/
def apiClientRequest (token : Option String) (url : String) : HttpRequest :=
  applyAuthInterceptor token (HttpRequest.mk url none)

/-- Embeds the analyze call of `PoseAnalysis.tsx`: it uses the bare
global `axios`, not `apiClient`, so no interceptor runs and no
`Authorization` header is ever attached; the persisted token is not
consulted at all. -/
def poseAnalyzeRequest (filename : String) : HttpRequest :=
  HttpRequest.mk
    ("http://localhost:8000/api/v1/pose/analyze-image/" ++ filename) none

/-- Embeds the analyze call of the video-analysis component
(`analyzeVideo`): likewise made with the bare global `axios`, with only
the URL set and no `Authorization` header. -/
def videoAnalyzeRequest (filename : String) : HttpRequest :=
  HttpRequest.mk
    ("http://localhost:8000/api/v1/pose/analyze-video/" ++ filename) none

/-- Embeds the upload call of the `FileUpload` component's `onDrop`
handler: `axios.post('http://localhost:8000/api/v1/pose' + endpoint,
formData, { headers: { 'Content-Type': 'multipart/form-data' } })` —
again the bare global `axios`: only the multipart content type is set,
never an `Authorization` header, and the persisted token is not read. -/
def uploadRequest (f : JsFile) : HttpRequest :=
  HttpRequest.mk ("http://localhost:8000/api/v1/pose" ++ uploadEndpoint f)
    none

/-- Counterexample to C6 as stated: even with a bearer token persisted in
browser storage, the analyze call issued by `PoseAnalysis.tsx` carries no
`Authorization` header, because it is made with the bare `axios` instance
and never consults the token. -/
theorem analyze_request_no_auth_header :
    (poseAnalyzeRequest "shot.png").authHeader = none := by
  decide

/-- Claim C6 (amended): requests issued through the shared `apiClient`
carry the `Authorization: Bearer <token>` header whenever a non-empty
token is persisted, while the component-level calls — the upload call of
`FileUpload` and the analyze calls of both analysis views — are made
with the bare `axios` instance and never carry an `Authorization`
header. -/
theorem auth_header_spec (t url2 : String) (ht : t ≠ "") :
    (apiClientRequest (some t) url2).authHeader = some ("Bearer " ++ t) ∧
    (apiClientRequest (some t) url2).url = url2 ∧
    (∀ fn, (poseAnalyzeRequest fn).authHeader = none) ∧
    (∀ fn, (videoAnalyzeRequest fn).authHeader = none) ∧
    (∀ f : JsFile, (uploadRequest f).authHeader = none) := by
  refine ⟨?_, ?_, fun fn => rfl, fun fn => rfl, fun f => rfl⟩ <;>
    unfold apiClientRequest applyAuthInterceptor <;> simp [ht]

/-- Witness for C6 (amended): the persisted token `tok123` is attached to
an `apiClient` request for the pose-classes endpoint, while the bare
component-level requests carry no header. -/
theorem auth_header_witness :
    ("tok123" : String) ≠ "" ∧
    ((apiClientRequest (some "tok123") "/pose/pose-classes").authHeader =
        some ("Bearer " ++ "tok123") ∧
      (apiClientRequest (some "tok123") "/pose/pose-classes").url =
        "/pose/pose-classes" ∧
      (∀ fn, (poseAnalyzeRequest fn).authHeader = none) ∧
      (∀ fn, (videoAnalyzeRequest fn).authHeader = none) ∧
      (∀ f : JsFile, (uploadRequest f).authHeader = none)) :=
  ⟨by decide, auth_header_spec "tok123" "/pose/pose-classes" (by decide)⟩

/-- The local state of the `FileUpload` component: the `uploading` flag,
the stored upload result and the error string. -/
structure UploadState where
  uploading : Bool
  uploadResult : Option UploadResponse
  error : Option String
deriving DecidableEq, Repr

/-- The initial `FileUpload` state (`useState(false)`, `useState(null)`,
`useState(null)`). -/
def initialUploadState : UploadState :=
  UploadState.mk false none none

/-- Embeds the synchronous head of the `onDrop` handler of
`VideoAnalysis.simple.tsx` up to the point the upload request is issued:
`const file = acceptedFiles[0]; if (!file) return;
setUploading(true); setError(null); setUploadResult(null);` and the
choice of endpoint. The returned pair is the new component state and the
endpoint of the network call started (`none` when no call is made). Note
the handler does not consult the current `uploading` flag. -/
def onDropStep (s : UploadState) (acceptedFiles : List JsFile) :
    UploadState × Option String :=
  match acceptedFiles with
  | [] => (s, none)
  | f :: _ => (UploadState.mk true none none, some (uploadEndpoint f))

/-- What the `FileUpload` error region shows: the JSX
`{error && <Alert severity='error'>{error}</Alert>}` renders only when
`error` is truthy. -/
def displayedUploadError (s : UploadState) : Option String :=
  match s.error with
  | some e => if e = "" then none else some e
  | none => none

/-- Image extensions of the `useDropzone` `accept` map. -/
def imageExts : List String :=
  [".png", ".jpg", ".jpeg", ".bmp"]

/-- Video extensions of the `useDropzone` `accept` map. -/
def videoExts : List String :=
  [".mp4", ".avi", ".mov", ".mkv"]

/-- The `maxSize` of the `useDropzone` configuration: `50 * 1024 * 1024`. -/
def maxUploadSize : ℕ :=
  50 * 1024 * 1024

/-- Whether a file name carries one of the allow-listed extensions. -/
def extAllowed (nm : String) : Bool :=
  (imageExts ++ videoExts).any (fun e => jsEndsWith nm e)

/-- The react-dropzone acceptance test induced by the `useDropzone`
configuration of `VideoAnalysis.simple.tsx` (`accept` allow-list and
`maxSize`): a file is accepted when its extension is allow-listed and its
size does not exceed the ceiling. -/
def dropzoneAccepts (f : JsFile) : Bool :=
  extAllowed f.name && decide (f.size ≤ maxUploadSize)

/-- The accepted-file list react-dropzone hands to `onDrop` for a dropped
file list: the files passing the acceptance test. -/
def dropzoneFilter (files : List JsFile) : List JsFile :=
  files.filter dropzoneAccepts

/-- Claim C7 (amended): the `onDrop` handler has no reentrancy guard — a
drop with an accepted file starts a new upload call and resets the upload
state regardless of the current `Uploading` state, using only the first
file of a multi-file drop; only a drop with no accepted file is ignored
(no call, state unchanged). -/
theorem ondrop_step_spec (s : UploadState) (f : JsFile)
    (rest : List JsFile) :
    onDropStep s [] = (s, none) ∧
    (onDropStep s (f :: rest)).2 = some (uploadEndpoint f) ∧
    (onDropStep s (f :: rest)).1 = UploadState.mk true none none := by
  exact ⟨rfl, rfl, rfl⟩

/-- Counterexample to C7 as stated: with the component already in the
`Uploading` state, dropping another accepted file is not ignored — a new
upload network call is started. -/
theorem ondrop_reentrancy_counterexample :
    (onDropStep (UploadState.mk true none none)
      [JsFile.mk "clip.mp4" "video/mp4" 1024]).2 ≠ none := by
  decide

/-- Claim C8 (amended): for every upload attempt whose file exceeds 50MB
or whose extension is outside the allow-list, the dropzone rejects the
file, so no network call is made and the component state — including the
displayed error region — is left unchanged; no validation message is
shown. -/
theorem rejected_upload_spec (s : UploadState) (f : JsFile)
    (h : maxUploadSize < f.size ∨ extAllowed f.name = false) :
    dropzoneFilter [f] = [] ∧
    onDropStep s (dropzoneFilter [f]) = (s, none) ∧
    displayedUploadError (onDropStep s (dropzoneFilter [f])).1 =
      displayedUploadError s := by
  have hacc : dropzoneAccepts f = false := by
    unfold dropzoneAccepts
    rcases h with h | h
    · simp [Nat.not_le.mpr h]
    · simp [h]
  have hfilter : dropzoneFilter [f] = [] := by
    unfold dropzoneFilter
    simp [List.filter, hacc]
  refine ⟨hfilter, ?_, ?_⟩ <;> rw [hfilter] <;> rfl

/-- Counterexample to C8 as stated: a 50MB-plus-one-byte `.mp4` file is
rejected with no network call, but no validation message appears — the
error region stays empty. -/
theorem rejected_upload_counterexample :
    dropzoneAccepts
      (JsFile.mk "big.mp4" "video/mp4" (50 * 1024 * 1024 + 1)) = false ∧
    onDropStep initialUploadState
      (dropzoneFilter
        [JsFile.mk "big.mp4" "video/mp4" (50 * 1024 * 1024 + 1)]) =
      (initialUploadState, none) ∧
    displayedUploadError
      (onDropStep initialUploadState
        (dropzoneFilter
          [JsFile.mk "big.mp4" "video/mp4" (50 * 1024 * 1024 + 1)])).1 =
      none := by
  refine ⟨by decide, by decide, by decide⟩

/-- Witness for C8 (amended): `rejected_upload_spec` applied to the
oversized `.mp4` file above. -/
theorem rejected_upload_witness :
    (maxUploadSize <
        (JsFile.mk "big.mp4" "video/mp4" (50 * 1024 * 1024 + 1)).size ∨
      extAllowed (JsFile.mk "big.mp4" "video/mp4"
        (50 * 1024 * 1024 + 1)).name = false) ∧
    (dropzoneFilter
        [JsFile.mk "big.mp4" "video/mp4" (50 * 1024 * 1024 + 1)] = [] ∧
      onDropStep initialUploadState
        (dropzoneFilter
          [JsFile.mk "big.mp4" "video/mp4" (50 * 1024 * 1024 + 1)]) =
        (initialUploadState, none) ∧
      displayedUploadError
        (onDropStep initialUploadState
          (dropzoneFilter
            [JsFile.mk "big.mp4" "video/mp4"
              (50 * 1024 * 1024 + 1)])).1 =
        displayedUploadError initialUploadState) :=
  ⟨Or.inl (by decide),
    rejected_upload_spec initialUploadState
      (JsFile.mk "big.mp4" "video/mp4" (50 * 1024 * 1024 + 1))
      (Or.inl (by decide))⟩

/-- Pads a digit string on the left with zeros up to width `w`. -/
def padLeftZeros (w : ℕ) (s : String) : String :=
  if w ≤ s.length then s
  else String.mk (List.replicate (w - s.length) '0') ++ s

/-- JS `Number.prototype.toFixed(digits)` on an exact rational: the
ECMAScript algorithm picks the integer `n` minimising `|n / 10^d - x|`,
taking the larger `n` on ties, i.e. `n = ⌊x * 10^d + 1/2⌋`, and prints
`n / 10^d` with exactly `d` fractional digits. -/
def jsToFixed (digits : ℕ) (q : ℚ) : String :=
  let n : ℤ := jsRound (q * (10 : ℚ) ^ digits)
  let m : ℕ := n.natAbs
  let base : ℕ := 10 ^ digits
  let sign : String := if n < 0 then "-" else ""
  if digits = 0 then sign ++ toString m
  else sign ++ toString (m / base) ++ "." ++
    padLeftZeros digits (toString (m % base))

/-- Embeds the `value?.toFixed(digits) || 'N/A'` cells of the metric
grids: the optional chain is `Option.map`, and the JS `||` falls back to
the placeholder on `undefined` (or an empty string, which `toFixed`
never produces). -/
def renderOptMetric (digits : ℕ) (v : Option ℚ) : String :=
  jsOrString (v.map (fun x => jsToFixed digits x)) "N/A"

/-- The balance-ratio cell: `...balance_ratio?.toFixed(2) || 'N/A'`. -/
def renderBalance (v : Option ℚ) : String :=
  renderOptMetric 2 v

/-- The torso-angle cell: `...torso_angle?.toFixed(1) || 'N/A'`. -/
def renderTorsoAngle (v : Option ℚ) : String :=
  renderOptMetric 1 v

/-- The body-symmetry cell: `...body_symmetry?.toFixed(3) || 'N/A'`. -/
def renderSymmetry (v : Option ℚ) : String :=
  renderOptMetric 3 v

/-- The shoulder-width cell: `...shoulder_width?.toFixed(3) || 'N/A'`. -/
def renderShoulderWidth (v : Option ℚ) : String :=
  renderOptMetric 3 v

/-- The average-velocity cell of the video view:
`...average_velocity?.toFixed(4) || 'N/A'`. -/
def renderAvgVelocity (v : Option ℚ) : String :=
  renderOptMetric 4 v

/-- The max-velocity cell of the video view:
`...max_velocity?.toFixed(4) || 'N/A'`. -/
def renderMaxVelocity (v : Option ℚ) : String :=
  renderOptMetric 4 v

/-- JS `(value || 0)` on a possibly-undefined number (`0` is falsy, so a
present zero behaves like an absent value, both yielding `0`). -/
def jsOrZero (v : Option ℚ) : ℚ :=
  match v with
  | some x => x
  | none => 0

/-- The confidence line of `PoseAnalysis.tsx`:
`Confidence: (Math.round((...confidence || 0) * 100))%`. -/
def renderConfidence (c : Option ℚ) : String :=
  "Confidence: " ++ toString (jsRound (jsOrZero c * 100)) ++ "%"

/-- The score line of `PoseAnalysis.tsx`:
`Score: (Math.round((...quality_score || 0) * 100))/100`. -/
def renderScore (q : Option ℚ) : String :=
  "Score: " ++ toString (jsRound (jsOrZero q * 100)) ++ "/100"

theorem jsRound_zero_mul : jsRound ((0 : ℚ) * 100) = 0 := by
  unfold jsRound
  norm_num

/-- Claim C9 (amended): the metric cells guarded with
`?.toFixed(n) || 'N/A'` (balance ratio, torso angle, body symmetry,
shoulder width, average velocity, max velocity) render the literal
placeholder `N/A` — neither `0` nor blank — when their field is absent;
the confidence and quality-score lines instead substitute `0` for an
absent field and render a `0`-valued text. -/
theorem missing_metric_spec :
    renderBalance none = "N/A" ∧
    renderTorsoAngle none = "N/A" ∧
    renderSymmetry none = "N/A" ∧
    renderShoulderWidth none = "N/A" ∧
    renderAvgVelocity none = "N/A" ∧
    renderMaxVelocity none = "N/A" ∧
    ("N/A" : String) ≠ "0" ∧
    ("N/A" : String) ≠ "" ∧
    renderConfidence none = "Confidence: 0%" ∧
    renderScore none = "Score: 0/100" := by
  refine ⟨rfl, rfl, rfl, rfl, rfl, rfl, by decide, by decide, ?_, ?_⟩
  · simp only [renderConfidence, jsOrZero, jsRound_zero_mul]
    decide
  · simp only [renderScore, jsOrZero, jsRound_zero_mul]
    decide

/-- Counterexample to C9 as stated: the confidence line is a rendered
numeric metric, yet with the `confidence` field absent it shows
`Confidence: 0%` — a `0`, not the `N/A` placeholder. -/
theorem missing_confidence_counterexample :
    renderConfidence none ≠ "N/A" ∧
    renderConfidence none = "Confidence: 0%" := by
  constructor <;> simp only [renderConfidence, jsOrZero, jsRound_zero_mul] <;>
    decide

/-- The top-level `App` state: the active tab index and the uploaded
filename shared with the analysis views. -/
structure AppState where
  activeTab : ℕ
  uploadedFile : Option String
deriving DecidableEq, Repr

/-- Embeds `handleFileUpload` of `App.tsx`:
`setUploadedFile(filename); setActiveTab(1);`. It receives only the
filename — the media kind reported by the upload widget is not part of
its signature. -/
def handleFileUpload (s : AppState) (filename : String) : AppState :=
  AppState.mk 1 (some filename)

/-- The top-level reaction to a completed upload: the upload widget
reports `(filename, kind)`, and `App.tsx` passes `handleFileUpload` as
the `onFileUpload` callback, which ignores the kind. -/
def afterUpload (s : AppState) (filename : String) (kind : MediaKind) :
    AppState :=
  handleFileUpload s filename

/-- The four tab panels of `App.tsx`, in index order. -/
inductive AppView
  | uploadTab
  | imageAnalysisTab
  | videoAnalysisTab
  | progressTab
deriving DecidableEq, Repr

/-- Which view a tab index selects (`TabPanel value=activeTab index=i`):
index 0 is the upload widget, 1 the pose (image) analysis view, 2 the
video analysis view, 3 the player-progress view. -/
def viewOfTab (n : ℕ) : Option AppView :=
  match n with
  | 0 => some .uploadTab
  | 1 => some .imageAnalysisTab
  | 2 => some .videoAnalysisTab
  | 3 => some .progressTab
  | _ => none

/-- The `uploadedFile` prop handed to the pose-analysis view. -/
def poseViewFile (s : AppState) : Option String :=
  s.uploadedFile

/-- The `uploadedFile` prop handed to the video-analysis view. -/
def videoViewFile (s : AppState) : Option String :=
  s.uploadedFile

/-- Claim C10 (amended): after a successful upload reports
`(filename, kind)`, the top level stores the filename — which both
analysis views receive as their `uploadedFile` prop — and always
switches to the pose-(image-)analysis tab, regardless of the reported
kind. -/
theorem after_upload_spec (s : AppState) (fn : String) (k : MediaKind) :
    (afterUpload s fn k).uploadedFile = some fn ∧
    (afterUpload s fn k).activeTab = 1 ∧
    viewOfTab (afterUpload s fn k).activeTab = some AppView.imageAnalysisTab ∧
    poseViewFile (afterUpload s fn k) = some fn ∧
    videoViewFile (afterUpload s fn k) = some fn := by
  exact ⟨rfl, rfl, rfl, rfl, rfl⟩

/-- Counterexample to C10 as stated: after uploading `clip.mp4` with
kind `video`, the top level selects the image-analysis view (tab 1), not
the video-analysis view (tab 2). -/
theorem video_upload_selects_image_tab :
    viewOfTab (afterUpload (AppState.mk 0 none) "clip.mp4"
        MediaKind.video).activeTab = some AppView.imageAnalysisTab ∧
    viewOfTab (afterUpload (AppState.mk 0 none) "clip.mp4"
        MediaKind.video).activeTab ≠ some AppView.videoAnalysisTab := by
  decide

end BasketballPose
